import Mathlib

/-!
Shallow embedding of `crawler_ai/app.py` — the scraping orchestrator
(`run_scraper`), the watchdog file handler (`FileHandler.on_modified`),
the bundle-rendering loop, the base64 download link builder
(`download_button`) and the terminal reporting in `main` — together with
theorems settling the specification's claims about them.
-/

/-! ### Python string primitives used by the source -/

/-- Whitespace characters recognized by Python's `str.strip()`. -/
def pyWs (c : Char) : Bool :=
  c = ' ' || c = '\t' || c = '\n' || c = '\r' || c = '\x0b' || c = '\x0c'

/-- Python `str.strip()`: drop leading and trailing whitespace. -/
def pyStrip (s : String) : String :=
  String.mk (((s.data.dropWhile pyWs).reverse.dropWhile pyWs).reverse)

/-- Fuel-indexed worker for Python `s.replace(pat, '')`: remove the
non-overlapping occurrences of `pat`, scanning left to right.  The fuel is
only a termination device; each step consumes at least one character of the
string, so fuel `s.length` (as supplied by `pyRemoveAll`) never runs out. -/
def removeAllGo (pat : List Char) : Nat → List Char → List Char
  | _, [] => []
  | 0, s => s
  | fuel + 1, c :: cs =>
    if pat ≠ [] ∧ pat.isPrefixOf (c :: cs) then
      removeAllGo pat fuel (List.drop (pat.length - 1) cs)
    else
      c :: removeAllGo pat fuel cs

/-- Python `s.replace(pat, '')`. -/
def pyRemoveAll (pat s : List Char) : List Char :=
  removeAllGo pat s.length s

/-- Python `s.endswith(suf)`. -/
def pyEndsWith (s suf : String) : Bool :=
  suf.data.isSuffixOf s.data

/-- Python `os.path.basename`: the part of the path after the last '/'. -/
def basename (p : String) : String :=
  String.mk ((p.data.reverse.takeWhile (fun c => c ≠ '/')).reverse)

/-- Line 45 of `app.py`, inside `run_scraper`:
`domain = url.replace('https://', '').replace('http://', '').split('/')[0]`
(`split('/')[0]` is the segment before the first '/'). -/
def derive_domain (url : String) : List Char :=
  (pyRemoveAll "http://".data (pyRemoveAll "https://".data url.data)).takeWhile
    (fun c => c ≠ '/')

/-- URL validation in `main`: `url.startswith(('http://', 'https://'))`. -/
def url_valid (url : String) : Bool :=
  "http://".data.isPrefixOf url.data || "https://".data.isPrefixOf url.data

/-! ### The watcher's mapping (`FileHandler.files_content`) -/

/-- Python dict `files_content` as an insertion-ordered association list with
unique keys. -/
abbrev Dict := List (String × String)

/-- Python `d[k] = v`: overwrite in place if the key is present, else append. -/
def dictSet (k v : String) : Dict → Dict
  | [] => [(k, v)]
  | (k', v') :: rest => if k' = k then (k', v) :: rest else (k', v') :: dictSet k v rest

/-- Python `d.get(k)`: the value stored under `k`, if any. -/
def dictGet (k : String) : Dict → Option String
  | [] => none
  | (k', v) :: rest => if k' = k then some v else dictGet k rest

/-! ### The watchdog handler (`FileHandler`) -/

/-- Kinds of watchdog filesystem events (`FileCreatedEvent`,
`FileModifiedEvent`, `FileMovedEvent`, `FileDeletedEvent`). -/
inductive EventKind
  | created
  | modified
  | moved
  | deleted
deriving DecidableEq

/-- One delivered watchdog event, together with what opening and reading
`src_path` as UTF-8 would return at the moment the event is handled:
`.ok content` for a successful whole-file read, `.error msg` when the read
raises (carrying the exception's message). -/
structure FsEvent where
  kind : EventKind
  is_directory : Bool
  src_path : String
  readResult : Except String String

/-- Lines 26–33 of `app.py` (`FileHandler.on_modified`): on a non-directory
event whose path ends in `.txt`, re-read the whole file and store its content
keyed by base filename; a read failure is printed and swallowed, leaving the
mapping untouched.  Returns the updated mapping and the printed lines. -/
def on_modified (d : Dict) (ev : FsEvent) : Dict × List String :=
  if !ev.is_directory && pyEndsWith ev.src_path ".txt" then
    match ev.readResult with
    | .ok content => (dictSet (basename ev.src_path) content d, [])
    | .error e => (d, ["Error reading file: " ++ e])
  else (d, [])

/-- Watchdog's event dispatch applied to `FileHandler`: the class overrides
only `on_modified`, so for every other event kind the inherited
`FileSystemEventHandler` method runs and is a no-op. -/
def dispatch_event (d : Dict) (ev : FsEvent) : Dict × List String :=
  match ev.kind with
  | .modified => on_modified d ev
  | _ => (d, [])

/-- Folding a sequence of delivered events through the handler, starting from
the empty `files_content` set up in `FileHandler.__init__`. -/
def applyEvents (evs : List FsEvent) : Dict :=
  evs.foldl (fun d ev => (dispatch_event d ev).1) []

/-! ### Bundle rendering (lines 74–77 of `app.py`) -/

/-- Comparison used by Python's `sorted(d.items())`: tuples compare
lexicographically, and a dict's keys are unique, so the comparison is decided
by the filename (code-point lexicographic order on its characters). -/
def itemLe (a b : String × String) : Prop := a.1.data ≤ b.1.data

instance : DecidableRel itemLe := fun a b => by unfold itemLe; infer_instance

/-- Python `sorted(d.items())` (a stable sort; on unique keys every sort by
`itemLe` agrees). -/
def pySorted (d : Dict) : Dict := List.insertionSort itemLe d

/-- One section of the bundle: the f-string on line 77 of `app.py`,
`f"## 📄 {filename}\n\x60\x60\x60\n{content}\n\x60\x60\x60\n\n"`. -/
def sectionFor (fn content : String) : String :=
  "## 📄 " ++ fn ++ "\n```\n" ++ content ++ "\n```\n\n"

/-- Lines 74–77 of `app.py`: `combined_content` is rebuilt from scratch by
folding over `sorted(files_content.items())`, appending one section per
file. -/
def render (d : Dict) : String :=
  (pySorted d).foldl (fun acc p => acc ++ sectionFor p.1 p.2) ""

/-! ### Base64 and the download link (lines 15–19 of `app.py`) -/

/-- Character of the base64 alphabet at index `n` (`n < 64` in every use). -/
def b64Char (n : Nat) : Char :=
  if n < 26 then Char.ofNat (65 + n)
  else if n < 52 then Char.ofNat (97 + (n - 26))
  else if n < 62 then Char.ofNat (48 + (n - 52))
  else if n = 62 then '+'
  else '/'

/-- Index of a base64 alphabet character (inverse of `b64Char` below 64). -/
def b64Val (c : Char) : Nat :=
  if 65 ≤ c.toNat ∧ c.toNat ≤ 90 then c.toNat - 65
  else if 97 ≤ c.toNat ∧ c.toNat ≤ 122 then c.toNat - 97 + 26
  else if 48 ≤ c.toNat ∧ c.toNat ≤ 57 then c.toNat - 48 + 52
  else if c = '+' then 62
  else 63

/-- Python `base64.b64encode` over a byte sequence (each entry < 256):
three bytes become four alphabet characters, a final group of one or two
bytes is padded with '='. -/
def b64encode : List Nat → List Char
  | [] => []
  | [a] => [b64Char (a / 4), b64Char (a % 4 * 16), '=', '=']
  | [a, b] => [b64Char (a / 4), b64Char (a % 4 * 16 + b / 16), b64Char (b % 16 * 4), '=']
  | a :: b :: c :: rest =>
    b64Char (a / 4) :: b64Char (a % 4 * 16 + b / 16) :: b64Char (b % 16 * 4 + c / 64) ::
      b64Char (c % 64) :: b64encode rest

/-- Python `base64.b64decode` on well-formed input: four characters at a time,
'=' padding ending the data. -/
def b64decode : List Char → List Nat
  | c0 :: c1 :: c2 :: c3 :: rest =>
    if c2 = '=' then [b64Val c0 * 4 + b64Val c1 / 16]
    else if c3 = '=' then
      [b64Val c0 * 4 + b64Val c1 / 16, b64Val c1 % 16 * 16 + b64Val c2 / 4]
    else
      (b64Val c0 * 4 + b64Val c1 / 16) :: (b64Val c1 % 16 * 16 + b64Val c2 / 4) ::
        (b64Val c2 % 4 * 64 + b64Val c3) :: b64decode rest
  | _ => []

/-- Lines 15–19 of `app.py` (`download_button`): base64-encode the content's
UTF-8 bytes (`content` stands for `content.encode()`) and splice the result
into the HTML anchor
`<a href="data:text/plain;base64,{b64}" download="{filename}" class="download-button">{button_text}</a>`. -/
def download_button (content : List Nat) (filename button_text : List Char) : List Char :=
  "<a href=\"data:text/plain;base64,".data
    ++ b64encode content
    ++ "\" download=\"".data ++ filename
    ++ "\" class=\"download-button\">".data ++ button_text
    ++ "</a>".data

/-- Reading the embedded payload back out of the anchor built by
`download_button`: the maximal run of non-quote characters after the
`base64,` marker. -/
def extractPayload (href : List Char) : List Char :=
  (href.drop ("<a href=\"data:text/plain;base64,".data.length)).takeWhile
    (fun c => c ≠ '\"')

/-! ### The orchestration run (`run_scraper`, lines 41–98) and `main` -/

/-- Environment of one `run_scraper` call: which of the three fallible steps
succeed (`os.makedirs`, `observer.start`, `subprocess.Popen`), the lines the
process writes to its stdout pipe, the lines sitting in its (never read)
stderr pipe, and its exit code. -/
structure RunWorld where
  url : String
  mkdirOk : Bool
  observerStartOk : Bool
  spawnOk : Bool
  stdoutLines : List String
  stderrLines : List String
  exitCode : Int

/-- Observable outcome of `run_scraper`: the returned value, the lines written
to `status_container` by the drain loop, the `st.error` diagnostics emitted
inside `run_scraper`, and the state of the two acquired resources (watch
observer, process handle) at the moment the function returns. -/
structure RunOutcome where
  ret : Int
  statusEvents : List String
  errors : List String
  observerStarted : Bool
  observerStopped : Bool
  spawned : Bool
deriving DecidableEq

/-- Lines 41–98 of `app.py` (`run_scraper`).  The whole body is one `try`:
directory creation, `observer.start()` and `subprocess.Popen` may raise
(modelled by the `*Ok` flags); the `except` arm shows `st.error` and returns
the constant 1 — without stopping an already started observer, since there is
no `finally`.  On the normal path the drain loop writes every non-empty
stdout line, stripped, to `status_container`; the loop ends when stdout is
exhausted and `process.poll()` is no longer `None`; then the observer is
stopped and joined and the process's exit code is returned.  The stderr pipe
is created (`stderr=subprocess.PIPE`) but never read anywhere in the body. -/
def run_scraper (w : RunWorld) : RunOutcome :=
  if !w.mkdirOk then
    { ret := 1, statusEvents := [], errors := ["Error running scraper"],
      observerStarted := false, observerStopped := false, spawned := false }
  else if !w.observerStartOk then
    { ret := 1, statusEvents := [], errors := ["Error running scraper"],
      observerStarted := false, observerStopped := false, spawned := false }
  else if !w.spawnOk then
    { ret := 1, statusEvents := [], errors := ["Error running scraper"],
      observerStarted := true, observerStopped := false, spawned := false }
  else
    { ret := w.exitCode,
      statusEvents := (w.stdoutLines.filter (fun l => l ≠ "")).map pyStrip,
      errors := [],
      observerStarted := true, observerStopped := true, spawned := true }

/-- Terminal indications `main` can show once `run_scraper` has returned. -/
inductive Terminal
  | success
  | failure
deriving DecidableEq

/-- Lines 181–186 of `app.py`: after `run_scraper` returns, `main` shows
`st.success` when the result equals 0 and `st.error` otherwise — one
indication, chosen by the returned code. -/
def mainTerminal (result : Int) : List Terminal :=
  if result = 0 then [Terminal.success] else [Terminal.failure]

/-! ### C1 — exactly one terminal indication -/

/-- C1: whenever `run_scraper` reaches its drain loop (directory creation,
observer start and process spawn all succeed), it returns the external
process's exit code, and `main` then shows exactly one terminal indication:
`st.success` alone when the code is 0, `st.error` alone when it is nonzero —
never both and never neither. -/
theorem c1_terminal_status (w : RunWorld)
    (hm : w.mkdirOk = true) (ho : w.observerStartOk = true) (hs : w.spawnOk = true) :
    (run_scraper w).ret = w.exitCode ∧
      (w.exitCode = 0 → mainTerminal (run_scraper w).ret = [Terminal.success]) ∧
      (w.exitCode ≠ 0 → mainTerminal (run_scraper w).ret = [Terminal.failure]) := by
  refine ⟨?_, fun h => ?_, fun h => ?_⟩
  · simp [run_scraper, hm, ho, hs]
  · simp [run_scraper, hm, ho, hs, mainTerminal, h]
  · simp [run_scraper, hm, ho, hs, mainTerminal, h]

/-- Witness for C1: a run whose process prints one line and exits 0 yields the
exit code 0 and a single success indication. -/
theorem c1_terminal_status_witness :
    (run_scraper ⟨"https://example.com", true, true, true, ["done\n"], [], 0⟩).ret = 0 ∧
      mainTerminal
        (run_scraper ⟨"https://example.com", true, true, true, ["done\n"], [], 0⟩).ret =
        [Terminal.success] := by
  have h := c1_terminal_status ⟨"https://example.com", true, true, true, ["done\n"], [], 0⟩
    rfl rfl rfl
  exact ⟨h.1, h.2.1 rfl⟩

/-! ### C2 — the derived domain -/

/-- C2 counterexample: the URL "http://" passes `main`'s validation
(`url.startswith(('http://', 'https://'))`) yet its derived domain is empty,
refuting the claimed non-emptiness. -/
theorem c2_counterexample :
    url_valid "http://" = true ∧ derive_domain "http://" = [] := by
  decide

/-- C2 amended: for every valid URL the derived domain contains no path
separator '/' and hence no "://" scheme separator (the only POSIX-unsafe
filename character it could carry); it can however be empty, e.g. for the
valid URL "http://". -/
theorem c2_amended_domain (url : String) (h : url_valid url = true) :
    '/' ∉ derive_domain url ∧
      ¬ ∃ l r : List Char, derive_domain url = l ++ ':' :: '/' :: '/' :: r := by
  have h1 : '/' ∉ derive_domain url := by
    intro hmem
    unfold derive_domain at hmem
    have hp := List.mem_takeWhile_imp hmem
    simp at hp
  refine ⟨h1, ?_⟩
  rintro ⟨l, r, heq⟩
  exact h1 (by rw [heq]; simp)

/-- Witness for C2 amended at the valid URL "https://example.com/path". -/
theorem c2_amended_domain_witness :
    '/' ∉ derive_domain "https://example.com/path" ∧
      ¬ ∃ l r : List Char,
        derive_domain "https://example.com/path" = l ++ ':' :: '/' :: '/' :: r :=
  c2_amended_domain "https://example.com/path" (by decide)

/-! ### C3 — resource release on exit paths -/

/-- C3 counterexample: when directory setup and the observer start succeed but
`subprocess.Popen` raises (e.g. the `node` executable is missing), the
`except` arm returns with the observer started and never stopped — the watch
handle is not released on this exit path. -/
theorem c3_counterexample :
    (run_scraper ⟨"https://example.com", true, true, false, [], [], 0⟩).observerStarted
        = true ∧
      (run_scraper ⟨"https://example.com", true, true, false, [], [], 0⟩).observerStopped
        = false := by
  decide

/-- C3 amended: the observer is started exactly when directory setup and
`observer.start()` succeed, but it is stopped before returning only when the
process spawn also succeeds and the drain loop runs to completion; on the
exception path entered after the observer started (a spawn failure) the
function returns without releasing the watch handle, since the `try` has no
`finally`. -/
theorem c3_amended_release (w : RunWorld) :
    (run_scraper w).observerStarted = (w.mkdirOk && w.observerStartOk) ∧
      (run_scraper w).observerStopped = (w.mkdirOk && w.observerStartOk && w.spawnOk) := by
  cases h1 : w.mkdirOk <;> cases h2 : w.observerStartOk <;> cases h3 : w.spawnOk <;>
    simp [run_scraper, h1, h2, h3]

/-! ### C5 — standard error -/

/-- C5 counterexample: in a successful run whose process writes nothing to
stdout but the line "boom" to stderr, `run_scraper` surfaces no event at all:
the stderr line is never consumed or shown, refuting the claim that stderr
lines are surfaced as diagnostic events. -/
theorem c5_counterexample :
    (run_scraper ⟨"https://example.com", true, true, true, [], ["boom"], 0⟩).statusEvents
        = [] ∧
      (run_scraper ⟨"https://example.com", true, true, true, [], ["boom"], 0⟩).errors
        = [] := by
  decide

/-- C5 amended: the process's stderr is captured in its own pipe
(`stderr=subprocess.PIPE`), separate from stdout, and stderr output never by
itself terminates the run — but its lines are never read or surfaced either:
the entire observable outcome of `run_scraper` is invariant under any change
to the stderr contents. -/
theorem c5_amended_stderr_ignored (w : RunWorld) (l : List String) :
    run_scraper
        ⟨w.url, w.mkdirOk, w.observerStartOk, w.spawnOk, w.stdoutLines, l, w.exitCode⟩ =
      run_scraper w := by
  cases h1 : w.mkdirOk <;> cases h2 : w.observerStartOk <;> cases h3 : w.spawnOk <;>
    simp [run_scraper, h1, h2, h3]

/-! ### C10 — internal failures all return 1 -/

/-- C10: every exception raised in `run_scraper`'s body (directory creation,
observer start or process spawn) is caught by the single `except` arm, which
emits one `st.error` diagnostic and returns the constant 1 — the same value
returned for a worker process that exits with code 1, so the caller cannot
tell the two apart from the returned code. -/
theorem c10_internal_failure_returns_one (w w' : RunWorld)
    (hfail : w.mkdirOk = false ∨ w.observerStartOk = false ∨ w.spawnOk = false)
    (hm : w'.mkdirOk = true) (ho : w'.observerStartOk = true) (hs : w'.spawnOk = true)
    (he : w'.exitCode = 1) :
    (run_scraper w).ret = 1 ∧ (run_scraper w).errors = ["Error running scraper"] ∧
      (run_scraper w').ret = 1 ∧ (run_scraper w).ret = (run_scraper w').ret := by
  have h' : (run_scraper w').ret = 1 := by simp [run_scraper, hm, ho, hs, he]
  have h1 : (run_scraper w).ret = 1 ∧ (run_scraper w).errors = ["Error running scraper"] := by
    cases h1 : w.mkdirOk <;> cases h2 : w.observerStartOk <;> cases h3 : w.spawnOk <;>
      simp [run_scraper, h1, h2, h3] <;> simp [h1, h2, h3] at hfail
  exact ⟨h1.1, h1.2, h', h1.1.trans h'.symm⟩

/-- Witness for C10: a spawn failure and a worker exiting 1 both yield return
value 1. -/
theorem c10_internal_failure_witness :
    (run_scraper ⟨"http://x", true, true, false, [], [], 0⟩).ret = 1 ∧
      (run_scraper ⟨"http://x", true, true, true, [], [], 1⟩).ret = 1 :=
  ⟨(c10_internal_failure_returns_one
      ⟨"http://x", true, true, false, [], [], 0⟩
      ⟨"http://x", true, true, true, [], [], 1⟩
      (Or.inr (Or.inr rfl)) rfl rfl rfl rfl).1,
    (c10_internal_failure_returns_one
      ⟨"http://x", true, true, false, [], [], 0⟩
      ⟨"http://x", true, true, true, [], [], 1⟩
      (Or.inr (Or.inr rfl)) rfl rfl rfl rfl).2.2.1⟩

/-! ### C4 — which events the watcher handles -/

/-- C4 counterexample: a pure file-creation event for a readable `.txt` file
is not handled — `FileHandler` overrides only `on_modified`, so the inherited
no-op `on_created` runs and nothing is stored, refuting the claim that
file-creation events are detected. -/
theorem c4_counterexample :
    (dispatch_event [] ⟨EventKind.created, false, "out/d/new.txt", Except.ok "X"⟩).1 = [] ∧
      dictGet "new.txt"
        (dispatch_event [] ⟨EventKind.created, false, "out/d/new.txt", Except.ok "X"⟩).1 =
        none := by
  decide

/-- C4 amended: the watcher handles file-modification events only — every
other event kind falls through to the inherited no-op.  For a delivered
modification event it ignores directory events and files whose name does not
end in `.txt`, and on a qualifying event it re-reads the entire file as UTF-8
and stores the content keyed by base filename. -/
theorem c4_amended_watcher (d : Dict) (ev : FsEvent) :
    (ev.kind ≠ EventKind.modified → dispatch_event d ev = (d, [])) ∧
      (ev.kind = EventKind.modified → ev.is_directory = true →
        dispatch_event d ev = (d, [])) ∧
      (ev.kind = EventKind.modified → pyEndsWith ev.src_path ".txt" = false →
        dispatch_event d ev = (d, [])) ∧
      (∀ content, ev.kind = EventKind.modified → ev.is_directory = false →
        pyEndsWith ev.src_path ".txt" = true → ev.readResult = Except.ok content →
        (dispatch_event d ev).1 = dictSet (basename ev.src_path) content d) := by
  obtain ⟨k, dirFlag, path, res⟩ := ev
  refine ⟨fun hk => ?_, fun hk hdir => ?_, fun hk ht => ?_, fun content hk hdir ht hr => ?_⟩
  · cases k <;> simp_all [dispatch_event]
  · cases hk
    simp only at hdir
    simp [dispatch_event, on_modified, hdir]
  · cases hk
    simp only at ht
    simp [dispatch_event, on_modified, ht]
  · cases hk
    simp only at hr hdir ht
    subst hr
    simp [dispatch_event, on_modified, hdir, ht]

/-- Witness for C4 amended: a creation event is ignored; the same file's
modification event stores its content under the base filename. -/
theorem c4_amended_watcher_witness :
    dispatch_event [] ⟨EventKind.created, false, "out/d/f.txt", Except.ok "X"⟩ = ([], []) ∧
      (dispatch_event [] ⟨EventKind.modified, false, "out/d/f.txt", Except.ok "X"⟩).1 =
        dictSet (basename "out/d/f.txt") "X" [] :=
  ⟨(c4_amended_watcher [] ⟨EventKind.created, false, "out/d/f.txt", Except.ok "X"⟩).1
      (by decide),
    (c4_amended_watcher [] ⟨EventKind.modified, false, "out/d/f.txt", Except.ok "X"⟩).2.2.2
      "X" rfl rfl (by decide) rfl⟩

/-! ### C9 — read failures are swallowed -/

/-- C9: when the whole-file read raises while handling a qualifying
modification event, the handler logs the error and swallows it: it returns
normally with the mapping exactly as before, so the previously stored content
for that filename (and every other) is retained, and a diagnostic line is
printed. -/
theorem c9_read_failure_swallowed (d : Dict) (ev : FsEvent)
    (hk : ev.kind = EventKind.modified)
    (hdir : ev.is_directory = false)
    (ht : pyEndsWith ev.src_path ".txt" = true)
    (he : ∃ msg, ev.readResult = Except.error msg) :
    (dispatch_event d ev).1 = d ∧
      dictGet (basename ev.src_path) (dispatch_event d ev).1 =
        dictGet (basename ev.src_path) d ∧
      (dispatch_event d ev).2 ≠ [] := by
  obtain ⟨msg, hmsg⟩ := he
  obtain ⟨k, dirFlag, path, res⟩ := ev
  cases hk
  simp only at hmsg hdir ht
  subst hmsg
  simp [dispatch_event, on_modified, hdir, ht]

/-- Witness for C9: a failing read on "out/d/f.txt" leaves the stored content
for "f.txt" untouched. -/
theorem c9_read_failure_witness :
    (dispatch_event [("f.txt", "old")]
        ⟨EventKind.modified, false, "out/d/f.txt", Except.error "boom"⟩).1 =
        [("f.txt", "old")] ∧
      dictGet (basename "out/d/f.txt")
          (dispatch_event [("f.txt", "old")]
            ⟨EventKind.modified, false, "out/d/f.txt", Except.error "boom"⟩).1 =
        dictGet (basename "out/d/f.txt") [("f.txt", "old")] ∧
      (dispatch_event [("f.txt", "old")]
          ⟨EventKind.modified, false, "out/d/f.txt", Except.error "boom"⟩).2 ≠ [] :=
  c9_read_failure_swallowed [("f.txt", "old")]
    ⟨EventKind.modified, false, "out/d/f.txt", Except.error "boom"⟩
    rfl rfl (by decide) ⟨"boom", rfl⟩

/-! ### C6 — rendering is ordered and exact -/

instance : IsTotal (String × String) itemLe :=
  ⟨fun a b => le_total a.1.data b.1.data⟩

instance : IsTrans (String × String) itemLe :=
  ⟨fun _ _ _ h1 h2 => le_trans h1 h2⟩

/-- Folding section appends from any prefix equals that prefix followed by the
joined sections. -/
theorem foldl_sections_eq_join (g : String × String → String) :
    ∀ (l : Dict) (s : String),
      l.foldl (fun acc p => acc ++ g p) s = s ++ String.join (l.map g)
  | [], s => by
    simp [String.join, String.append_empty]
  | p :: rest, s => by
    rw [List.foldl_cons, foldl_sections_eq_join g rest (s ++ g p), List.map_cons]
    apply String.ext
    simp [String.data_append, String.data_join]

/-- C6: `render` is a pure function of the snapshot.  For every snapshot, the
sorted item list is a permutation of it whose filenames are in ascending
code-point order and the bundle is the concatenation of one section per file
in that order; on the snapshot {"a.txt": "X", "b.txt": "Y"} the `a.txt`
section precedes the `b.txt` section, each holding its exact content. -/
theorem c6_render_sections :
    (∀ d : Dict,
        (pySorted d).Perm d ∧
          List.Sorted (fun a b : String => a.data ≤ b.data)
            ((pySorted d).map Prod.fst) ∧
          render d = String.join ((pySorted d).map (fun p => sectionFor p.1 p.2))) ∧
      render [("a.txt", "X"), ("b.txt", "Y")] =
        "## 📄 a.txt\n```\nX\n```\n\n" ++ "## 📄 b.txt\n```\nY\n```\n\n" := by
  constructor
  · intro d
    refine ⟨List.perm_insertionSort itemLe d, ?_, ?_⟩
    · exact List.Pairwise.map Prod.fst (fun a b hab => hab)
        (List.sorted_insertionSort itemLe d)
    · unfold render
      rw [foldl_sections_eq_join, String.empty_append]
  · decide

/-! ### C8 — the bundle depends only on the final mapping -/

/-- Key membership after a dict update: the new key, plus the old keys. -/
theorem dictSet_keys_mem (k v a : String) :
    ∀ d : Dict, a ∈ (dictSet k v d).map Prod.fst ↔ a = k ∨ a ∈ d.map Prod.fst
  | [] => by simp [dictSet]
  | (k', v') :: rest => by
    by_cases h : k' = k
    · subst h
      simp [dictSet]
    · simp [dictSet, h, dictSet_keys_mem k v a rest]
      tauto

/-- A dict update preserves uniqueness of keys. -/
theorem dictSet_keys_nodup (k v : String) :
    ∀ d : Dict, (d.map Prod.fst).Nodup → ((dictSet k v d).map Prod.fst).Nodup
  | [] => by simp [dictSet]
  | (k', v') :: rest => by
    intro hnd
    simp only [List.map_cons, List.nodup_cons] at hnd
    by_cases h : k' = k
    · subst h
      simp only [dictSet, eq_self_iff_true, if_true, List.map_cons, List.nodup_cons]
      exact hnd
    · simp only [dictSet, if_neg h, List.map_cons, List.nodup_cons]
      refine ⟨?_, dictSet_keys_nodup k v rest hnd.2⟩
      intro hmem
      rw [dictSet_keys_mem] at hmem
      rcases hmem with rfl | hmem
      · exact h rfl
      · exact hnd.1 hmem

/-- One dispatched event preserves uniqueness of the mapping's keys. -/
theorem dispatch_keys_nodup (d : Dict) (ev : FsEvent)
    (hd : (d.map Prod.fst).Nodup) :
    (((dispatch_event d ev).1).map Prod.fst).Nodup := by
  obtain ⟨k, dir, path, res⟩ := ev
  cases k <;> simp only [dispatch_event] <;> try exact hd
  simp only [on_modified]
  cases hc : (!dir && pyEndsWith path ".txt")
  · simp [hc]
    exact hd
  · rcases res with e | c
    · simp [hc]
      exact hd
    · simp [hc]
      exact dictSet_keys_nodup _ _ _ hd

/-- The handler's mapping always has unique keys. -/
theorem applyEvents_keys_nodup (evs : List FsEvent) :
    ((applyEvents evs).map Prod.fst).Nodup := by
  suffices h : ∀ d : Dict, (d.map Prod.fst).Nodup →
      ((evs.foldl (fun d ev => (dispatch_event d ev).1) d).map Prod.fst).Nodup from
    h [] (by simp)
  induction evs with
  | nil => exact fun d hd => hd
  | cons ev rest ih =>
    intro d hd
    rw [List.foldl_cons]
    exact ih _ (dispatch_keys_nodup d ev hd)

/-- With unique keys, membership of a pair is exactly a successful lookup. -/
theorem mem_iff_dictGet {d : Dict} (hnd : (d.map Prod.fst).Nodup) (k v : String) :
    (k, v) ∈ d ↔ dictGet k d = some v := by
  induction d with
  | nil => simp [dictGet]
  | cons p rest ih =>
    obtain ⟨k', v'⟩ := p
    simp only [List.map_cons, List.nodup_cons] at hnd
    by_cases h : k' = k
    · subst h
      simp only [dictGet, eq_self_iff_true, if_true, List.mem_cons, Prod.mk.injEq,
        Option.some.injEq]
      constructor
      · rintro (⟨-, rfl⟩ | hmem)
        · rfl
        · exact absurd (List.mem_map_of_mem Prod.fst hmem) hnd.1
      · intro hv
        exact Or.inl ⟨trivial, hv.symm⟩
    · simp only [dictGet, if_neg h, List.mem_cons, Prod.mk.injEq]
      rw [← ih hnd.2]
      have : ¬(k = k' ∧ v = v') := fun hkv => h hkv.1.symm
      tauto

/-- Pointwise-equal final mappings are permutations of each other. -/
theorem applyEvents_perm (evs₁ evs₂ : List FsEvent)
    (h : ∀ k, dictGet k (applyEvents evs₁) = dictGet k (applyEvents evs₂)) :
    (applyEvents evs₁).Perm (applyEvents evs₂) := by
  have n1 := applyEvents_keys_nodup evs₁
  have n2 := applyEvents_keys_nodup evs₂
  rw [List.perm_ext_iff_of_nodup (List.Nodup.of_map _ n1) (List.Nodup.of_map _ n2)]
  rintro ⟨k, v⟩
  rw [mem_iff_dictGet n1, mem_iff_dictGet n2, h k]

/-- Sorting two permuted mappings with unique keys gives the same list. -/
theorem pySorted_eq_of_perm {d₁ d₂ : Dict} (hp : d₁.Perm d₂)
    (n1 : (d₁.map Prod.fst).Nodup) : pySorted d₁ = pySorted d₂ := by
  have n2 : (d₂.map Prod.fst).Nodup := ((hp.map Prod.fst).nodup_iff).1 n1
  have hperm : (pySorted d₁).Perm (pySorted d₂) :=
    (List.perm_insertionSort itemLe d₁).trans
      (hp.trans (List.perm_insertionSort itemLe d₂).symm)
  have ns1 : ((pySorted d₁).map Prod.fst).Nodup :=
    (((List.perm_insertionSort itemLe d₁).map Prod.fst).nodup_iff).2 n1
  have ns2 : ((pySorted d₂).map Prod.fst).Nodup :=
    (((List.perm_insertionSort itemLe d₂).map Prod.fst).nodup_iff).2 n2
  have strict : ∀ (l : Dict), List.Sorted itemLe l → (l.map Prod.fst).Nodup →
      List.Pairwise (fun a b : String × String => a.1.data < b.1.data) l := by
    intro l hs hn
    have hne : List.Pairwise (fun a b : String × String => a.1 ≠ b.1) l :=
      (List.pairwise_map).1 hn
    refine (hs.and hne).imp ?_
    rintro a b ⟨hle, hne'⟩
    exact lt_of_le_of_ne hle (fun hdata => hne' (String.ext hdata))
  haveI : IsAntisymm (String × String) (fun a b => a.1.data < b.1.data) :=
    ⟨fun a b h1 h2 => absurd h2 (lt_asymm h1)⟩
  exact List.eq_of_perm_of_sorted hperm
    (strict _ (List.sorted_insertionSort itemLe d₁) ns1)
    (strict _ (List.sorted_insertionSort itemLe d₂) ns2)

/-- C8: the final bundle is a function of the final per-filename mapping
alone — two event sequences, in any order and with any duplication, whose
final mappings agree pointwise render identical bundles. -/
theorem c8_order_independence (evs₁ evs₂ : List FsEvent)
    (h : ∀ k, dictGet k (applyEvents evs₁) = dictGet k (applyEvents evs₂)) :
    render (applyEvents evs₁) = render (applyEvents evs₂) := by
  unfold render
  rw [pySorted_eq_of_perm (applyEvents_perm evs₁ evs₂ h) (applyEvents_keys_nodup evs₁)]

/-- Lookup in a two-entry mapping ignores the entry order when the keys
differ. -/
theorem dictGet_pair_swap (a b x y : String) (hab : a ≠ b) (k : String) :
    dictGet k [(a, x), (b, y)] = dictGet k [(b, y), (a, x)] := by
  by_cases h1 : a = k <;> by_cases h2 : b = k <;> simp [dictGet, h1, h2]
  exact absurd (h1.trans h2.symm) hab

/-- Witness for C8: delivering the two file events in the opposite order,
with one duplicated, yields the identical bundle. -/
theorem c8_order_independence_witness :
    render (applyEvents
        [⟨EventKind.modified, false, "out/a.txt", Except.ok "X"⟩,
          ⟨EventKind.modified, false, "out/b.txt", Except.ok "Y"⟩]) =
      render (applyEvents
        [⟨EventKind.modified, false, "out/b.txt", Except.ok "Y"⟩,
          ⟨EventKind.modified, false, "out/a.txt", Except.ok "X"⟩,
          ⟨EventKind.modified, false, "out/b.txt", Except.ok "Y"⟩]) :=
  c8_order_independence _ _ (by
    have e1 : applyEvents
        [⟨EventKind.modified, false, "out/a.txt", Except.ok "X"⟩,
          ⟨EventKind.modified, false, "out/b.txt", Except.ok "Y"⟩] =
        [("a.txt", "X"), ("b.txt", "Y")] := by decide
    have e2 : applyEvents
        [⟨EventKind.modified, false, "out/b.txt", Except.ok "Y"⟩,
          ⟨EventKind.modified, false, "out/a.txt", Except.ok "X"⟩,
          ⟨EventKind.modified, false, "out/b.txt", Except.ok "Y"⟩] =
        [("b.txt", "Y"), ("a.txt", "X")] := by decide
    intro k
    rw [e1, e2]
    exact dictGet_pair_swap "a.txt" "b.txt" "X" "Y" (by decide) k)

/-! ### C7 — download payload round trip -/

/-- Decoding inverts the alphabet map below 64. -/
theorem b64Val_b64Char : ∀ n < 64, b64Val (b64Char n) = n := by decide

/-- No alphabet character is the padding character. -/
theorem b64Char_ne_pad : ∀ n < 64, b64Char n ≠ '=' := by decide

/-- No alphabet character is a double quote (so the href stays well formed
and the payload can be read back up to the closing quote). -/
theorem b64Char_ne_quote : ∀ n < 64, b64Char n ≠ '\"' := by decide

/-- Base64 round trip on byte sequences. -/
theorem b64_roundtrip (bs : List Nat) :
    (∀ x ∈ bs, x < 256) → b64decode (b64encode bs) = bs := by
  induction bs using b64encode.induct with
  | case1 => intro _; rfl
  | case2 a =>
    intro hb
    have ha : a < 256 := hb a (by simp)
    simp only [b64encode, b64decode, eq_self_iff_true, if_true]
    rw [b64Val_b64Char _ (by omega), b64Val_b64Char _ (by omega)]
    have h1 : a / 4 * 4 + a % 4 * 16 / 16 = a := by omega
    rw [h1]
  | case3 a b =>
    intro hb
    have ha : a < 256 := hb a (by simp)
    have hb2 : b < 256 := hb b (by simp)
    simp only [b64encode, b64decode]
    rw [if_neg (b64Char_ne_pad _ (by omega))]
    simp only [eq_self_iff_true, if_true]
    rw [b64Val_b64Char _ (by omega), b64Val_b64Char _ (by omega),
      b64Val_b64Char _ (by omega)]
    have h1 : a / 4 * 4 + (a % 4 * 16 + b / 16) / 16 = a := by omega
    have h2 : (a % 4 * 16 + b / 16) % 16 * 16 + b % 16 * 4 / 4 = b := by omega
    rw [h1, h2]
  | case4 a b c rest ih =>
    intro hb
    have ha : a < 256 := hb a (by simp)
    have hb2 : b < 256 := hb b (by simp)
    have hc : c < 256 := hb c (by simp)
    simp only [b64encode, b64decode]
    rw [if_neg (b64Char_ne_pad _ (by omega)), if_neg (b64Char_ne_pad _ (by omega))]
    rw [b64Val_b64Char _ (by omega), b64Val_b64Char _ (by omega),
      b64Val_b64Char _ (by omega), b64Val_b64Char _ (by omega)]
    have h1 : a / 4 * 4 + (a % 4 * 16 + b / 16) / 16 = a := by omega
    have h2 : (a % 4 * 16 + b / 16) % 16 * 16 + (b % 16 * 4 + c / 64) / 4 = b := by omega
    have h3 : (b % 16 * 4 + c / 64) % 4 * 64 + c % 64 = c := by omega
    rw [h1, h2, h3, ih (fun x hx => hb x (by simp [hx]))]

/-- Every character of an encoded byte sequence differs from the quote that
closes the href attribute. -/
theorem b64encode_ne_quote (bs : List Nat) :
    (∀ x ∈ bs, x < 256) → ∀ c ∈ b64encode bs, c ≠ '\"' := by
  induction bs using b64encode.induct with
  | case1 =>
    intro _ c hc
    simp [b64encode] at hc
  | case2 a =>
    intro hb c hc
    have ha : a < 256 := hb a (by simp)
    simp only [b64encode, List.mem_cons, List.not_mem_nil, or_false] at hc
    rcases hc with rfl | rfl | rfl | rfl
    · exact b64Char_ne_quote _ (by omega)
    · exact b64Char_ne_quote _ (by omega)
    · decide
    · decide
  | case3 a b =>
    intro hb c hc
    have ha : a < 256 := hb a (by simp)
    have hb2 : b < 256 := hb b (by simp)
    simp only [b64encode, List.mem_cons, List.not_mem_nil, or_false] at hc
    rcases hc with rfl | rfl | rfl | rfl
    · exact b64Char_ne_quote _ (by omega)
    · exact b64Char_ne_quote _ (by omega)
    · exact b64Char_ne_quote _ (by omega)
    · decide
  | case4 a b c rest ih =>
    intro hb x hx
    have ha : a < 256 := hb a (by simp)
    have hb2 : b < 256 := hb b (by simp)
    have hc : c < 256 := hb c (by simp)
    simp only [b64encode, List.mem_cons] at hx
    rcases hx with rfl | rfl | rfl | rfl | hx
    · exact b64Char_ne_quote _ (by omega)
    · exact b64Char_ne_quote _ (by omega)
    · exact b64Char_ne_quote _ (by omega)
    · exact b64Char_ne_quote _ (by omega)
    · exact ih (fun y hy => hb y (by simp [hy])) x hx

/-- Scanning up to the first quote recovers a quote-free block placed before
a quote. -/
theorem takeWhile_until_quote :
    ∀ (l r : List Char), (∀ c ∈ l, c ≠ '\"') →
      (l ++ '\"' :: r).takeWhile (fun c => c ≠ '\"') = l
  | [], r, _ => by simp
  | c :: l, r, h => by
    have hc : c ≠ '\"' := h c (by simp)
    rw [List.cons_append, List.takeWhile_cons, if_pos (by simp [hc])]
    rw [takeWhile_until_quote l r (fun x hx => h x (by simp [hx]))]

/-- C7: the payload embedded in the anchor built by `download_button` is
exactly the base64 encoding of the content bytes, and decoding it yields back
exactly the original content (round-trip identity). -/
theorem c7_download_roundtrip (content : List Nat) (filename button_text : List Char)
    (h : ∀ x ∈ content, x < 256) :
    extractPayload (download_button content filename button_text) = b64encode content ∧
      b64decode (extractPayload (download_button content filename button_text)) =
        content := by
  have hq := b64encode_ne_quote content h
  have hext : extractPayload (download_button content filename button_text) =
      b64encode content := by
    unfold extractPayload download_button
    simp only [List.append_assoc]
    rw [List.drop_left, List.cons_append]
    rw [takeWhile_until_quote (b64encode content) _ hq]
  exact ⟨hext, by rw [hext, b64_roundtrip content h]⟩

/-- Witness for C7 at the two-byte content [72, 105] ("Hi"). -/
theorem c7_download_roundtrip_witness :
    extractPayload (download_button [72, 105] ("f.txt").data ("DL").data) =
        b64encode [72, 105] ∧
      b64decode (extractPayload (download_button [72, 105] ("f.txt").data ("DL").data)) =
        [72, 105] :=
  c7_download_roundtrip [72, 105] ("f.txt").data ("DL").data (by decide)
